/-
Verification of the streaming response assembler in
`src/utils/streaming.py` (class `StreamHandler` and its helpers).

The Python code is shallowly embedded over `List Char` (Python `str`),
`Int` (event-loop timestamps, modelled in integer milliseconds so that the
source comparison `time_since_last > 0.5` seconds becomes `500 < t`), and a
small `PyVal` universe for the JSON-like tool-result payloads.  The three
compiled regular expressions of `StreamHandler.__init__` are embedded by
executable functions implementing their exact matching semantics:

  * `sentence_endings  = re.compile(r'[.!?]+\s*')` — `searchSentGroup`
    (search: leftmost match; group = maximal punctuation run followed by
    the maximal whitespace run, which may be empty) and `splitSent`
    (re.split with the same pattern).
  * `numbered_list_pattern = re.compile(r'^\d+\.\s*')` — `numberedMatch`.
  * `bullet_point_pattern  = re.compile(r'^\*\s*')`   — `bulletMatch`.
  * `markdown_header_pattern = re.compile(r'^#{1,6}\s+')` — `headerMatch`.
-/
import Mathlib

set_option maxRecDepth 20000

/-- The whitespace characters stripped by Python `str.strip()` and matched
by `\s` in the source's regular expressions (ASCII range, which covers all
inputs appearing in this development). -/
def isPySpace (c : Char) : Bool :=
  c = ' ' || c = '\t' || c = '\n' || c = '\r' || c = '\x0b' || c = '\x0c'

/-- The sentence-ending punctuation class `[.!?]` of
`StreamHandler.sentence_endings`. -/
def punct (c : Char) : Bool :=
  c = '.' || c = '!' || c = '?'

/-- Python `str.strip()`: remove leading and trailing whitespace. -/
def stripL (l : List Char) : List Char :=
  ((l.dropWhile isPySpace).reverse.dropWhile isPySpace).reverse

/-- Remove every whitespace character (used to state the reconstruction
property, which compares streams "with whitespace characters removed"). -/
def dropWs (l : List Char) : List Char :=
  l.filter (fun c => !isPySpace c)

/-- `l` starts with `p`. -/
def startsWithL (l p : List Char) : Bool :=
  l.take p.length == p

/-- `pat` occurs as a contiguous substring of `l` (Python `pat in l`). -/
def containsSub : List Char → List Char → Bool
  | [], pat => pat.isEmpty
  | l@(_ :: rest), pat => startsWithL l pat || containsSub rest pat

/-- `re.search(r'[.!?]+\s*', l)`: `some g` where `g` is the matched text of
the leftmost match (maximal run of `.!?` followed by the maximal — possibly
empty — run of whitespace), `none` if no punctuation mark occurs. -/
def searchSentGroup : List Char → Option (List Char)
  | [] => none
  | c :: rest =>
    if punct c then
      some ((c :: rest.takeWhile punct) ++ (rest.dropWhile punct).takeWhile isPySpace)
    else searchSentGroup rest

/-- Scanner mode for `splitSent`: inside a piece, inside the punctuation
run of a separator, or inside the trailing whitespace run of a separator. -/
inductive SMode where
  | piece
  | pn
  | ws

/-- Worker for `splitSent`; `acc` holds the reversed current piece. -/
def splitSentGo : List Char → SMode → List Char → List (List Char)
  | [], SMode.piece, acc => [acc.reverse]
  | [], _, _ => [[]]
  | c :: rest, SMode.piece, acc =>
    if punct c then acc.reverse :: splitSentGo rest SMode.pn []
    else splitSentGo rest SMode.piece (c :: acc)
  | c :: rest, SMode.pn, _ =>
    if punct c then splitSentGo rest SMode.pn []
    else if isPySpace c then splitSentGo rest SMode.ws []
    else splitSentGo rest SMode.piece [c]
  | c :: rest, SMode.ws, _ =>
    if isPySpace c then splitSentGo rest SMode.ws []
    else if punct c then [] :: splitSentGo rest SMode.pn []
    else splitSentGo rest SMode.piece [c]

/-- `re.split(r'[.!?]+\s*', l)`: the pieces of `l` between successive
leftmost matches of the separator pattern. -/
def splitSent (l : List Char) : List (List Char) :=
  splitSentGo l SMode.piece []

/-- `'\n\n' in buffer` (line 118 of the source). -/
def hasDoubleNl : List Char → Bool
  | c1 :: c2 :: rest => (c1 = '\n' && c2 = '\n') || hasDoubleNl (c2 :: rest)
  | _ => false

/-- `re.search(r'^\d+\.\s*', l) is not None`: `l` begins with one or more
decimal digits followed by a literal dot (the trailing `\s*` imposes no
constraint). -/
def numberedMatch (l : List Char) : Bool :=
  let ds := l.takeWhile Char.isDigit
  !ds.isEmpty && ((l.drop ds.length).head? == some '.')

/-- `re.search(r'^\*\s*', l) is not None`: `l` begins with `*`. -/
def bulletMatch (l : List Char) : Bool :=
  l.head? == some '*'

/-- `re.search(r'^#{1,6}\s+', l) is not None`: `l` begins with one to six
`#` characters immediately followed by a whitespace character (with seven
or more leading hashes every backtracking alternative fails, because the
character after the chosen hashes is again `#`). -/
def headerMatch (l : List Char) : Bool :=
  let hs := l.takeWhile (fun c => c = '#')
  decide (1 ≤ hs.length) && decide (hs.length ≤ 6) &&
    ((l.drop hs.length).head?.any isPySpace)

/-- Embeds `StreamHandler._should_flush_buffer` (src/utils/streaming.py
lines 96-129).  `timeSinceMs` is `current_time - last_chunk_time` in
milliseconds; the source compares against `0.5` seconds. -/
def shouldFlushBuffer (buffer : List Char) (timeSinceMs : Int) : Bool :=
  if stripL buffer = [] then false
  else if (searchSentGroup buffer).isSome then true
  else if numberedMatch (stripL buffer) then true
  else if bulletMatch (stripL buffer) then true
  else if headerMatch (stripL buffer) then true
  else if hasDoubleNl buffer then true
  else if 200 < buffer.length then true
  else if 500 < timeSinceMs then true
  else false

/-- Embeds `StreamHandler._format_numbered_item` (lines 149-154):
append a newline if the content does not already end with one, then wrap
as `"\n" + content + "\n"`. -/
def formatNumberedItem (content : List Char) : List Char :=
  let c := if content.getLast? = some '\n' then content else content ++ ['\n']
  '\n' :: (c ++ ['\n'])

/-- Embeds `StreamHandler._format_bullet_point` (lines 156-160). -/
def formatBulletPoint (content : List Char) : List Char :=
  let c := if content.getLast? = some '\n' then content else content ++ ['\n']
  c ++ ['\n']

/-- Embeds `StreamHandler._format_header` (lines 162-166). -/
def formatHeader (content : List Char) : List Char :=
  let c := if content.getLast? = some '\n' then content else content ++ ['\n']
  '\n' :: (c ++ ['\n'])

/-- The loop of `StreamHandler._format_paragraph` (lines 174-184).
`content` is the full string being formatted, `n` the number of split
pieces, `i` the current index, and `pref` the value
`len(''.join(sentences[:i]))` — the source indexes `content` by the length
of the join of the raw pieces, which omits the separators. -/
def paraLoopAux (content : List Char) (n : Nat) :
    List (List Char) → Nat → Nat → List (List Char)
  | [], _, _ => []
  | s :: rest, i, pref =>
    let pref2 := pref + s.length
    if stripL s = [] then paraLoopAux content n rest (i + 1) pref2
    else
      let base := stripL s
      let withP :=
        if i < n - 1 then
          match searchSentGroup (content.drop pref2) with
          | some g => base ++ stripL g
          | none => base
        else base
      withP :: paraLoopAux content n rest (i + 1) pref2

/-- Embeds `StreamHandler._format_paragraph` (lines 168-193): split on the
sentence pattern, keep the stripped non-empty pieces with the punctuation
found by re-searching the suffix of `content` at the (separator-free) join
offset, join with single spaces and append a trailing `"\n\n"` unless the
result already ends in a newline. -/
def formatParagraph (content : List Char) : List Char :=
  let sentences := splitSent content
  let fs := paraLoopAux content sentences.length sentences 0 0
  if fs = [] then content ++ ['\n', '\n']
  else
    let result := List.intercalate [' '] fs
    if result.getLast? = some '\n' then result else result ++ ['\n', '\n']

/-- Embeds `StreamHandler._format_and_flush_buffer` (lines 131-147). -/
def formatAndFlushBuffer (buffer : List Char) : List Char :=
  if stripL buffer = [] then []
  else
    let content := stripL buffer
    if numberedMatch content then formatNumberedItem content
    else if bulletMatch content then formatBulletPoint content
    else if headerMatch content then formatHeader content
    else formatParagraph content

/-- The universe of JSON-like Python values carried by `tool_result`
events.  String rendering is modelled by `pyRepr`/`pyStr` below; string
escaping inside `repr` is not modelled (all strings in this development
need no escapes). -/
inductive PyVal where
  | str (s : String)
  | int (n : Int)
  | bool (b : Bool)
  | none
  | list (elems : List PyVal)
  | dict (entries : List (String × PyVal))

/-- Python truthiness (`if value:`): empty string, zero, `False`, `None`
and empty collections are falsy. -/
def pyTruthy : PyVal → Bool
  | PyVal.str s => s ≠ ""
  | PyVal.int n => n ≠ 0
  | PyVal.bool b => b
  | PyVal.none => false
  | PyVal.list l => !l.isEmpty
  | PyVal.dict l => !l.isEmpty

/-- Join with `", "`, as Python renders container elements. -/
def joinCommaSep (xs : List (List Char)) : List Char :=
  List.intercalate [',', ' '] xs

mutual
/-- Python `repr(value)` (scalar branches inlined; containers render their
elements with `repr`, as Python containers do). -/
def pyRepr : PyVal → List Char
  | PyVal.str s => '\x27' :: (s.data ++ ['\x27'])
  | PyVal.int n => (toString n).data
  | PyVal.bool b => if b then "True".data else "False".data
  | PyVal.none => "None".data
  | PyVal.list l => '[' :: (joinCommaSep (pyReprElems l) ++ [']'])
  | PyVal.dict l => '\x7b' :: (joinCommaSep (pyReprEntries l) ++ ['\x7d'])
/-- `repr` of each element of a list value. -/
def pyReprElems : List PyVal → List (List Char)
  | [] => []
  | v :: rest => pyRepr v :: pyReprElems rest
/-- `repr` of each `'key': value` entry of a dict value. -/
def pyReprEntries : List (String × PyVal) → List (List Char)
  | [] => []
  | kv :: rest =>
    ('\x27' :: (kv.1.data ++ ('\x27' :: (':' :: (' ' :: pyRepr kv.2))))) :: pyReprEntries rest
end

/-- Python `str(value)` / f-string interpolation: identical to `repr`
except on strings, which render without quotes. -/
def pyStr : PyVal → List Char
  | PyVal.str s => s.data
  | PyVal.int n => (toString n).data
  | PyVal.bool b => if b then "True".data else "False".data
  | PyVal.none => "None".data
  | v => pyRepr v

/-- `key.replace('_', ' ')`. -/
def replaceUnderscore (l : List Char) : List Char :=
  l.map (fun c => if c = '_' then ' ' else c)

/-- Worker for `pyTitle`: a letter is uppercased when the previous
character is not a letter, lowercased otherwise. -/
def pyTitleGo : List Char → Bool → List Char
  | [], _ => []
  | c :: rest, prevCased =>
    (if c.isAlpha then (if prevCased then c.toLower else c.toUpper) else c)
      :: pyTitleGo rest c.isAlpha

/-- Python `str.title()`. -/
def pyTitle (l : List Char) : List Char :=
  pyTitleGo l false

/-- One line of the dict branch of `_format_tool_result` (line 207):
`f"• **{formatted_key}:** {value}"` with
`formatted_key = key.replace('_', ' ').title()`. -/
def bulletLine (key : String) (v : PyVal) : List Char :=
  "• **".data ++ pyTitle (replaceUnderscore key.data) ++ ":** ".data ++ pyStr v

/-- The accumulation loop of the dict branch of `_format_tool_result`
(lines 202-207): append one bulleted line per entry whose value is truthy. -/
def toolDictLines (entries : List (String × PyVal)) : List (List Char) :=
  entries.foldl
    (fun acc kv => if pyTruthy kv.2 then acc ++ [bulletLine kv.1 kv.2] else acc) []

/-- The dict branch of `_format_tool_result` (lines 201-209):
`'\n'.join(formatted_parts)`. -/
def formatToolResultDict (entries : List (String × PyVal)) : List Char :=
  List.intercalate ['\n'] (toolDictLines entries)

/-- The list branch of `_format_tool_result` (lines 211-219):
`enumerate(result, 1)` with dict items recursively dict-formatted and all
other items rendered with `str`. -/
def toolListLines : Nat → List PyVal → List (List Char)
  | _, [] => []
  | i, item :: rest =>
    (match item with
      | PyVal.dict d => (toString i).data ++ ". ".data ++ formatToolResultDict d
      | _ => (toString i).data ++ ". ".data ++ pyStr item)
      :: toolListLines (i + 1) rest

/-- Embeds `StreamHandler._format_tool_result` (lines 195-225).  The
`try`/`except` wrapper cannot fire in this model (no operation raises). -/
def formatToolResult : PyVal → List Char
  | PyVal.str s => s.data
  | PyVal.dict entries => formatToolResultDict entries
  | PyVal.list items => List.intercalate ['\n'] (toolListLines 1 items)
  | v => pyStr v

/-- A chunk delivered by the response iterator: a plain text fragment, a
`{"tool_call": name}` dict, or a `{"tool_result": payload}` dict
(src/utils/streaming.py lines 48-83). -/
inductive Chunk where
  | text (s : String)
  | toolCall (name : String)
  | toolResult (v : PyVal)

/-- The mutable state of `stream_response`: the accumulation buffer and
`last_chunk_time` (milliseconds). -/
structure SState where
  buffer : List Char
  lastTime : Int
deriving DecidableEq

/-- `f"\n\n🔧 **Using {chunk['tool_call']}...**\n\n"` (line 60). -/
def toolCallMarker (name : String) : List Char :=
  "\n\n🔧 **Using ".data ++ name.data ++ "...**\n\n".data

/-- `f"\n\n📊 **Results:**\n\n{formatted_result}\n\n"` (line 69). -/
def toolResultChunk (v : PyVal) : List Char :=
  "\n\n📊 **Results:**\n\n".data ++ formatToolResult v ++ "\n\n".data

/-- The diagnostic chunk yielded by the `except` handler of
`stream_response` (line 94). -/
def errChunkData : List Char :=
  "\n\n❌ I apologize, but I encountered an error while processing your request. Please try again.\n\n".data

/-- One iteration of the `async for` body of `stream_response`
(lines 48-83), given the current state, the delivered chunk and its
arrival time: returns the successor state and the chunks yielded.  Empty
and whitespace-only text fragments satisfy neither `if not chunk` nor
`chunk.strip()` and fall through with no effect. -/
def stepChunk (st : SState) (c : Chunk) (now : Int) : SState × List (List Char) :=
  match c with
  | Chunk.text s =>
    if stripL s.data = [] then (st, [])
    else
      let buffer := st.buffer ++ s.data
      if shouldFlushBuffer buffer (now - st.lastTime) then
        let formatted := formatAndFlushBuffer buffer
        (SState.mk [] now, if formatted = [] then [] else [formatted])
      else (SState.mk buffer st.lastTime, [])
  | Chunk.toolCall name =>
    if stripL st.buffer = [] then (st, [toolCallMarker name])
    else (SState.mk [] st.lastTime, [formatAndFlushBuffer st.buffer, toolCallMarker name])
  | Chunk.toolResult v =>
    if stripL st.buffer = [] then (st, [toolResultChunk v])
    else (SState.mk [] st.lastTime, [formatAndFlushBuffer st.buffer, toolResultChunk v])

/-- The residual-buffer flush after the loop (lines 85-89): if the buffer
is non-blank, format it; yield the result if non-empty. -/
def drainFlush (buffer : List Char) : List (List Char) :=
  if stripL buffer = [] then []
  else if formatAndFlushBuffer buffer = [] then [] else [formatAndFlushBuffer buffer]

/-- The whole `stream_response` loop over a list of timestamped chunks.
`errored = true` models the upstream iterator raising when the next chunk
is pulled (after the listed ones were delivered): control transfers to the
`except` handler, which yields only the diagnostic chunk — the drain step
of lines 85-89 is skipped. -/
def runStream (st : SState) : List (Chunk × Int) → Bool → List (List Char)
  | [], errored => if errored then [errChunkData] else drainFlush st.buffer
  | (c, t) :: rest, errored =>
    (stepChunk st c t).2 ++ runStream (stepChunk st c t).1 rest errored

/-- Embeds `StreamHandler.stream_response` (lines 37-94) applied to a
recorded event sequence; `t0` is the initial `last_chunk_time`. -/
def streamOutputs (events : List (Chunk × Int)) (t0 : Int) (errored : Bool) :
    List (List Char) :=
  runStream (SState.mk [] t0) events errored

/-- The state reached after processing a list of chunks (no output). -/
def runState (st : SState) : List (Chunk × Int) → SState
  | [] => st
  | (c, t) :: rest => runState (stepChunk st c t).1 rest

/-- The chunks emitted while processing a list of events, excluding any
terminal drain or diagnostic chunk. -/
def emittedOuts (st : SState) : List (Chunk × Int) → List (List Char)
  | [] => []
  | (c, t) :: rest => (stepChunk st c t).2 ++ emittedOuts (stepChunk st c t).1 rest

/-- Modelled from the spec: the spec's sentence-end detection rule, "a
sentence-ending punctuation mark (`.`, `!`, `?`) followed by whitespace"
(spec §4.1 rule 1).  Stated for comparison with the source's
`searchSentGroup`, whose trailing `\s*` also matches the empty string. -/
def specSentenceEndB (l : List Char) : Bool :=
  (l.zip l.tail).any (fun p => punct p.1 && isPySpace p.2)

/-- The accumulating append loop `for x in xs: if p x: acc.append (f x)`
equals a filter-then-map. -/
theorem foldl_append_filter_map {α β : Type} (p : α → Bool) (f : α → β) :
    ∀ (xs : List α) (acc : List β),
      xs.foldl (fun a x => if p x then a ++ [f x] else a) acc =
        acc ++ (xs.filter p).map f := by
  intro xs
  induction xs with
  | nil => intro acc; simp
  | cons x rest ih =>
    intro acc
    cases hp : p x with
    | false => simp [List.filter_cons, hp, ih]
    | true => simp [List.filter_cons, hp, ih]

/-- The sentence-pattern search succeeds exactly when some `[.!?]`
character occurs in the string (the trailing `\s*` never blocks a match). -/
theorem searchSent_isSome_eq_any (l : List Char) :
    (searchSentGroup l).isSome = l.any punct := by
  induction l with
  | nil => simp [searchSentGroup]
  | cons c rest ih =>
    by_cases h : punct c = true
    · simp [searchSentGroup, h]
    · simp [searchSentGroup, h, ih]

/-- `_format_paragraph` never returns the empty string. -/
theorem formatParagraph_ne_nil (c : List Char) : formatParagraph c ≠ [] := by
  simp only [formatParagraph]
  split_ifs with h1 h2
  · simp
  · intro heq
    rw [heq] at h2
    simp at h2
  · simp

/-- `_format_and_flush_buffer` returns a non-empty string on every buffer
that is non-blank after stripping. -/
theorem formatAndFlush_ne_nil {b : List Char} (h : stripL b ≠ []) :
    formatAndFlushBuffer b ≠ [] := by
  simp only [formatAndFlushBuffer, if_neg h]
  split_ifs with h1 h2 h3
  · simp [formatNumberedItem]
  · intro hF
    simp [formatBulletPoint] at hF
  · simp [formatHeader]
  · exact formatParagraph_ne_nil _

/-- Splitting the stream run into the per-event outputs plus the terminal
step: the diagnostic chunk on the error path, the residual drain otherwise. -/
theorem runStream_split (evs : List (Chunk × Int)) :
    ∀ (st : SState) (errored : Bool),
      runStream st evs errored =
        emittedOuts st evs ++
          (if errored then [errChunkData] else drainFlush (runState st evs).buffer) := by
  induction evs with
  | nil => intro st e; simp [runStream, emittedOuts, runState]
  | cons et rest ih =>
    intro st e
    obtain ⟨c, t⟩ := et
    simp [runStream, emittedOuts, runState, ih]

/-- Claim C1.  The reconstruction invariant fails on the code: feeding the
single fragment `".a"` yields the single chunk `"a\n\n"` — the leading dot
is dropped, because `_format_paragraph` skips the empty split piece in
front of it and never re-attaches its punctuation, so the outputs stripped
of whitespace do not equal the input stripped of whitespace. -/
theorem c1_reconstruction_code_bug :
    streamOutputs [(Chunk.text ".a", 0)] 0 false = ["a\n\n".data] ∧
      dropWs (List.flatten (streamOutputs [(Chunk.text ".a", 0)] 0 false)) ≠
        dropWs ".a".data := by
  decide

/-- Claim C2.  `_should_flush_buffer` returns `false` on blank buffers and
otherwise returns `true` exactly when the buffer matches the sentence-end
pattern, the (stripped) buffer matches the numbered-item, bullet or header
pattern, the buffer contains a paragraph break `"\n\n"`, its length
exceeds 200 characters, or the elapsed time exceeds 500 milliseconds. -/
theorem c2_flush_policy_characterization (b : List Char) (t : Int) :
    shouldFlushBuffer b t = true ↔
      stripL b ≠ [] ∧
        ((searchSentGroup b).isSome = true ∨ numberedMatch (stripL b) = true ∨
          bulletMatch (stripL b) = true ∨ headerMatch (stripL b) = true ∨
          hasDoubleNl b = true ∨ 200 < b.length ∨ 500 < t) := by
  unfold shouldFlushBuffer
  split_ifs with h1 h2 h3 h4 h5 h6 h7 h8 <;> simp_all

/-- Claim C3, counterexample.  A single 500-character fragment with no
punctuation, whitespace or newlines is emitted as ONE chunk, not at least
two: the flush check only runs after the entire fragment has been appended
to the buffer. -/
theorem c3_size_bound_counterexample :
    (streamOutputs [(Chunk.text (String.mk (List.replicate 500 'a')), 0)] 0 false).length
        = 1 ∧
      ¬ 2 ≤ (streamOutputs [(Chunk.text (String.mk (List.replicate 500 'a')), 0)]
        0 false).length := by
  decide

/-- Claim C3, amended.  For a single 500-character fragment of `'a'`s the
buffer grows to 500 characters before any flush decision is made; the
size rule (length strictly greater than 200) then triggers a flush at the
first check after the append, and the whole fragment is emitted as exactly
one output chunk.  A 200-character buffer alone does not trigger the rule. -/
theorem c3_single_chunk_amended :
    streamOutputs [(Chunk.text (String.mk (List.replicate 500 'a')), 0)] 0 false =
        [List.replicate 500 'a' ++ ['\n', '\n']] ∧
      shouldFlushBuffer (List.replicate 500 'a') 0 = true ∧
      shouldFlushBuffer (List.replicate 200 'a') 0 = false := by
  decide

/-- Claim C4.  For the event sequence Text "Looking up data", ToolCallStarted
"meal_planner", ToolResult with calories 2000, Text "Done.", the emitted
chunks are exactly: the force-flushed text chunk, the tool-call marker, the
formatted result chunk with the key/value line for calories, and the final
"Done." chunk — in that order, with the quoted fragments contained in the
corresponding chunks and no tool marker inside a prose chunk. -/
theorem c4_tool_event_ordering :
    streamOutputs [(Chunk.text "Looking up data", 0), (Chunk.toolCall "meal_planner", 0),
        (Chunk.toolResult (PyVal.dict [("calories", PyVal.int 2000)]), 0),
        (Chunk.text "Done.", 0)] 0 false =
      ["Looking up data\n\n".data, "\n\n🔧 **Using meal_planner...**\n\n".data,
        "\n\n📊 **Results:**\n\n• **Calories:** 2000\n\n".data, "Done.\n\n".data] ∧
      containsSub "Looking up data\n\n".data "Looking up data".data = true ∧
      containsSub "\n\n🔧 **Using meal_planner...**\n\n".data "meal_planner".data = true ∧
      containsSub "\n\n📊 **Results:**\n\n• **Calories:** 2000\n\n".data "Calories".data
        = true ∧
      containsSub "\n\n📊 **Results:**\n\n• **Calories:** 2000\n\n".data "2000".data
        = true ∧
      containsSub "Done.\n\n".data "Done.".data = true := by
  decide

/-- Claim C5, counterexample.  A residual buffer consisting of a single
space character is non-empty, yet the drain step of lines 85-89 emits no
final chunk for it: the flush is guarded by `buffer.strip()`, so a
whitespace-only residual is discarded rather than flushed. -/
theorem c5_whitespace_drain_counterexample :
    " ".data ≠ [] ∧ drainFlush " ".data = [] := by
  decide

/-- Claim C5, amended.  At end-of-stream every residual buffer that is
non-blank after trimming whitespace is flushed unconditionally (the flush
policy is not consulted) as exactly one final, non-empty output chunk;
a whitespace-only residual is discarded instead (and cannot arise, since
blank fragments are never appended to the buffer). -/
theorem c5_drain_flushes_nonblank (b : List Char) (h : stripL b ≠ []) :
    drainFlush b = [formatAndFlushBuffer b] ∧ formatAndFlushBuffer b ≠ [] := by
  have h2 := formatAndFlush_ne_nil h
  refine ⟨?_, h2⟩
  unfold drainFlush
  rw [if_neg h, if_neg h2]

/-- Witness for C5: the fragment "Hi" followed by end-of-stream is drained
into the final chunk "Hi\n\n" rather than discarded. -/
theorem c5_drain_witness :
    stripL "Hi".data ≠ [] ∧
      (drainFlush "Hi".data = [formatAndFlushBuffer "Hi".data] ∧
        formatAndFlushBuffer "Hi".data ≠ []) ∧
      streamOutputs [(Chunk.text "Hi", 0)] 0 false = ["Hi\n\n".data] :=
  ⟨by decide, c5_drain_flushes_nonblank "Hi".data (by decide), by decide⟩

/-- Claim C6, counterexample.  When the upstream raises after delivering
Text "Hello" (still buffered, no flush trigger), the assembler emits ONLY
the diagnostic chunk: the accumulated buffer is discarded silently, not
flushed before the diagnostic as the claim requires. -/
theorem c6_buffer_discarded_counterexample :
    streamOutputs [(Chunk.text "Hello", 0)] 0 true = [errChunkData] ∧
      (streamOutputs [(Chunk.text "Hello", 0)] 0 true).all
        (fun c => !containsSub c "Hello".data) = true := by
  decide

/-- Claim C6, amended.  On an upstream error the assembler emits the chunks
already produced for the processed events followed by exactly one final
diagnostic chunk, and the exception never propagates; unlike the
end-of-stream path (which drains the residual buffer), the error path
discards whatever text is still buffered. -/
theorem c6_error_path_amended (events : List (Chunk × Int)) (t0 : Int) :
    streamOutputs events t0 true =
        emittedOuts (SState.mk [] t0) events ++ [errChunkData] ∧
      streamOutputs events t0 false =
        emittedOuts (SState.mk [] t0) events ++
          drainFlush (runState (SState.mk [] t0) events).buffer := by
  constructor
  · simpa using runStream_split events (SState.mk [] t0) true
  · simpa using runStream_split events (SState.mk [] t0) false

/-- Claim C7.  The chunk formatter is not idempotent: formatting the
string "a !!!! b ! c" once yields "a!!!! b!! c\n\n", but formatting that
result again yields "a!!!! b!!! c\n\n" — the punctuation-restoration
search of `_format_paragraph` indexes `content` by the separator-free join
of the split pieces, so the second pass picks up a longer suffix of an
earlier punctuation run. -/
theorem c7_idempotence_code_bug :
    formatAndFlushBuffer "a !!!! b ! c".data = "a!!!! b!! c\n\n".data ∧
      formatAndFlushBuffer (formatAndFlushBuffer "a !!!! b ! c".data) =
        "a!!!! b!!! c\n\n".data ∧
      formatAndFlushBuffer (formatAndFlushBuffer "a !!!! b ! c".data) ≠
        formatAndFlushBuffer "a !!!! b ! c".data := by
  decide

/-- Claim C8, counterexample.  The buffer "e.g" contains a sentence-ending
punctuation mark NOT followed by whitespace: the spec-side rule (punctuation
followed by whitespace) does not match, yet the source's pattern matches
(its trailing `\s*` also accepts the empty string) and the flush fires via
the sentence rule — no other rule applies to "e.g". -/
theorem c8_sentence_whitespace_counterexample :
    (searchSentGroup "e.g".data).isSome = true ∧
      specSentenceEndB "e.g".data = false ∧
      shouldFlushBuffer "e.g".data 0 = true ∧
      numberedMatch (stripL "e.g".data) = false ∧
      bulletMatch (stripL "e.g".data) = false ∧
      headerMatch (stripL "e.g".data) = false ∧
      hasDoubleNl "e.g".data = false ∧
      ¬ 200 < "e.g".data.length := by
  decide

/-- Claim C8, amended.  The flush decision tests the sentence-end rule
first (a non-blank buffer matching it flushes regardless of the remaining
rules), and the sentence-end rule matches exactly when the buffer contains
one of `.`, `!`, `?` anywhere — whether or not whitespace follows, since
the trailing `\s*` of the pattern also matches the empty string. -/
theorem c8_sentence_rule_amended (b : List Char) (t : Int) :
    ((searchSentGroup b).isSome = b.any punct) ∧
      (stripL b ≠ [] → b.any punct = true → shouldFlushBuffer b t = true) := by
  refine ⟨searchSent_isSome_eq_any b, fun h1 h2 => ?_⟩
  have hs : (searchSentGroup b).isSome = true := by
    rw [searchSent_isSome_eq_any]; exact h2
  simp [shouldFlushBuffer, h1, hs]

/-- Witness for C8: the buffer "Hi." is non-blank, contains punctuation,
and flushes. -/
theorem c8_sentence_rule_witness :
    stripL "Hi.".data ≠ [] ∧ "Hi.".data.any punct = true ∧
      shouldFlushBuffer "Hi.".data 0 = true :=
  ⟨by decide, by decide,
    (c8_sentence_rule_amended "Hi.".data 0).2 (by decide) (by decide)⟩

/-- Claim C9.  A text fragment that is empty or blank after stripping is
skipped entirely by the loop body of `stream_response`: the state (buffer
and flush timer) is unchanged and nothing is emitted, so such a fragment
contributes nothing to any output chunk, including at end-of-stream. -/
theorem c9_blank_fragments_skipped (st : SState) (now : Int) (s : String)
    (h : stripL s.data = []) :
    stepChunk st (Chunk.text s) now = (st, []) := by
  simp [stepChunk, h]

/-- Witness for C9: a whitespace-only fragment leaves a concrete state
untouched and emits nothing. -/
theorem c9_blank_fragments_witness :
    stripL " \t".data = [] ∧
      stepChunk (SState.mk ['x'] 3) (Chunk.text " \t") 9 = (SState.mk ['x'] 3, []) :=
  ⟨by decide, c9_blank_fragments_skipped (SState.mk ['x'] 3) 9 " \t" (by decide)⟩

/-- Claim C10.  Formatting a dict tool result yields one bulleted
key/value line per entry with a truthy value — the key with underscores
replaced by spaces and title-cased — joined by newlines, with every
falsy-valued entry omitted. -/
theorem c10_dict_result_lines (entries : List (String × PyVal)) :
    formatToolResult (PyVal.dict entries) =
      List.intercalate ['\n']
        ((entries.filter fun kv => pyTruthy kv.2).map fun kv =>
          "• **".data ++ pyTitle (replaceUnderscore kv.1.data) ++
            ":** ".data ++ pyStr kv.2) := by
  have h := foldl_append_filter_map (fun kv : String × PyVal => pyTruthy kv.2)
    (fun kv : String × PyVal => bulletLine kv.1 kv.2) entries []
  simp only [List.nil_append] at h
  show formatToolResultDict entries = _
  rw [formatToolResultDict, toolDictLines, h]
  simp only [bulletLine]
